import Mathlib

/-!
Verification of the readiness and lifecycle engine in client/client.go.

The embedding is shallow: the cluster API is an oracle (a structure of
functions indexed by a global poll tick), time is measured in poll-interval
ticks (one tick = one fixed poll interval of the source, 2 time units), and
a timeout of `n` ticks allows `n` condition evaluations or loop iterations
before the corresponding context or wait loop expires.  Fallible Go calls
are `Except String`.
-/

set_option maxRecDepth 4096

/-- Pod lifecycle phase, mirroring v1.PodPhase values used by the source. -/
inductive PodPhase where
  | Pending
  | Running
  | Succeeded
  | Failed
  | Unknown
deriving DecidableEq

/-- One container status entry of a pod status (name and Ready flag). -/
structure ContainerStatus where
  name : String
  ready : Bool
deriving DecidableEq

/-- The slice of v1.Pod the readiness code reads: name, labels, phase and
container statuses. -/
structure Pod where
  name : String
  labels : List (String × String)
  phase : PodPhase
  containerStatuses : List ContainerStatus
deriving DecidableEq

/-- ReadyCheckData from client.go: the readiness contract of one component.
Timeout is measured in poll-interval ticks. -/
structure ReadyCheckData where
  ReadinessProbeCheckSelector : String
  Selector : String
  Container : String
  LogSubStr : String
  Timeout : Nat
deriving DecidableEq

/-- The part of the ManifestOutput interface the readiness checks consume:
GetNamespace and GetReadyCheckData. -/
structure ManifestOutput where
  Namespace : String
  ReadyCheck : ReadyCheckData
deriving DecidableEq

/-- Cluster API oracle.  Each call is indexed by the global tick at which it
is issued, so polled state may change between ticks.
listPodsAt tick ns selector; getPodAt tick ns podName;
getLogsAt tick ns podName container returns the bounded log tail as lines. -/
structure Cluster where
  listPodsAt : Nat → String → String → Except String (List Pod)
  getPodAt : Nat → String → String → Except String Pod
  getLogsAt : Nat → String → String → String → Except String (List String)

/-- Result of a whole check: Go nil error, or a non-nil error message. -/
inductive RunResult where
  | ok
  | error (msg : String)
deriving DecidableEq

/-- Result of one wait.PollImmediate run. -/
inductive PollResult where
  | success
  | timedOut
  | condErr (msg : String)
deriving DecidableEq

/-- Whether the first list is an initial segment of the second. -/
def leadsWith : List Char → List Char → Bool
  | [], _ => true
  | _ :: _, [] => false
  | p :: ps, c :: cs => p == c && leadsWith ps cs

/-- Substring search helper over character lists (strings.Contains). -/
def hasSubstrAux (pat : List Char) : List Char → Bool
  | [] => pat.isEmpty
  | c :: cs => leadsWith pat (c :: cs) || hasSubstrAux pat cs

/-- strings.Contains s pat. -/
def hasSubstr (s pat : String) : Bool :=
  hasSubstrAux pat.data s.data

/-- Go map lookup p.Labels[k]: the empty string when the key is absent. -/
def labelValue (p : Pod) (k : String) : String :=
  match p.labels.lookup k with
  | some v => v
  | none => ""

/-- The loop body of UniqueLabels.  Faithful to the source: the membership
check against the seen set is performed, but the seen set is never
extended, so the branch that skips a pod is dead code. -/
def uniqueLabelsLoop (isUniqueSeen : List String) : List Pod → List String
  | [] => []
  | p :: ps =>
    let appLabel := labelValue p "app"
    if isUniqueSeen.contains appLabel then uniqueLabelsLoop isUniqueSeen ps
    else appLabel :: uniqueLabelsLoop isUniqueSeen ps

/-- UniqueLabels from client.go, as a function of the pod list call result. -/
def UniqueLabels (podListResult : Except String (List Pod)) : Except String (List String) :=
  match podListResult with
  | .error e => .error e
  | .ok ps => .ok (uniqueLabelsLoop [] ps)

/-- isPodRunning from client.go: the wait.ConditionFunc body, as a function
of the pod Get result.  Running is done; Failed and Succeeded are condition
errors, which abort the poll; anything else means retry. -/
def isPodRunning (r : Except String Pod) : Except String Bool :=
  match r with
  | .error e => .error e
  | .ok pod =>
    match pod.phase with
    | .Running => .ok true
    | .Failed => .error "pod failed"
    | .Succeeded => .error "pod succeeded, are we expecting a Job type"
    | _ => .ok false

/-- wait.PollImmediate with the global tick threaded through: the condition
is evaluated at tick t, then at t+1, and so on, for at most fuel
evaluations; the returned Nat is the next unused tick, so the ticks
consumed are exactly the interval from the start tick to it. -/
def pollImmediateFrom (cond : Nat → Except String Bool) : Nat → Nat → PollResult × Nat
  | t, 0 => (.timedOut, t)
  | t, fuel + 1 =>
    match cond t with
    | .error e => (.condErr e, t + 1)
    | .ok true => (.success, t + 1)
    | .ok false => pollImmediateFrom cond (t + 1) fuel

/-- waitForPodRunning from client.go: poll isPodRunning against a pod Get
oracle, with the ReadyCheckData timeout as fuel. -/
def waitForPodRunning (getPod : Nat → Except String Pod) (t0 fuel : Nat) : PollResult × Nat :=
  pollImmediateFrom (fun s => isPodRunning (getPod s)) t0 fuel

/-- The pod loop of WaitForPodBySelectorRunning: each pod is waited on in
turn, and, as in the source, each pod restarts the full timeout window.
A poll timeout surfaces as the wait package timeout error message. -/
def waitPodsRunningFrom (getPod : Nat → String → Except String Pod) (fuel : Nat) :
    List Pod → Nat → RunResult × Nat
  | [], t => (.ok, t)
  | p :: ps, t =>
    match waitForPodRunning (fun s => getPod s p.name) t fuel with
    | (.success, t2) => waitPodsRunningFrom getPod fuel ps t2
    | (.timedOut, t2) => (.error "timed out waiting for the condition", t2)
    | (.condErr e, t2) => (.error e, t2)

/-- The empty-selector error message of client.go.  Faithful to the source,
which formats the ReadyCheckData timeout into the selector slot, the second
argument here is the printed timeout, not the selector. -/
def noPodsMsg (ns printedTimeout : String) : String :=
  "no pods in " ++ ns ++ " with selector " ++ printedTimeout

/-- WaitForPodBySelectorRunning from client.go, started at tick t0: list
pods once, fail fast on an empty match, then wait for each pod in turn. -/
def waitForPodBySelectorRunningFrom (cl : Cluster) (c : ManifestOutput) (t0 : Nat) :
    RunResult × Nat :=
  match cl.listPodsAt t0 c.Namespace c.ReadyCheck.ReadinessProbeCheckSelector with
  | .error e => (.error e, t0)
  | .ok pods =>
    if pods.length == 0 then
      (.error (noPodsMsg c.Namespace (toString c.ReadyCheck.Timeout)), t0)
    else
      waitPodsRunningFrom (fun t n => cl.getPodAt t c.Namespace n) c.ReadyCheck.Timeout pods t0

/-- WaitForPodBySelectorRunning started at tick 0. -/
def WaitForPodBySelectorRunning (cl : Cluster) (c : ManifestOutput) : RunResult × Nat :=
  waitForPodBySelectorRunningFrom cl c 0

/-- The allReady computation of WaitContainersReady: true unless some
container status of some pod reports not ready. -/
def allContainersReady (pods : List Pod) : Bool :=
  pods.all (fun p => p.containerStatuses.all (fun cs => cs.ready))

/-- The loop of WaitContainersReady.  fuel is the number of iterations left
before the context deadline fires; each iteration lists pods at the current
tick, fails fast on an empty match, succeeds when all container statuses
are ready, and otherwise sleeps one tick. -/
def waitContainersReadyFrom (cl : Cluster) (ns sel printedTimeout : String) :
    Nat → Nat → RunResult
  | _, 0 => .error "timeout waiting container readiness probes"
  | t, fuel + 1 =>
    match cl.listPodsAt t ns sel with
    | .error e => .error e
    | .ok pods =>
      if pods.length == 0 then .error (noPodsMsg ns printedTimeout)
      else if allContainersReady pods then .ok
      else waitContainersReadyFrom cl ns sel printedTimeout (t + 1) fuel

/-- WaitContainersReady from client.go with its own fresh context deadline,
started at tick 0. -/
def WaitContainersReady (cl : Cluster) (c : ManifestOutput) : RunResult :=
  waitContainersReadyFrom cl c.Namespace c.ReadyCheck.ReadinessProbeCheckSelector
    (toString c.ReadyCheck.Timeout) 0 c.ReadyCheck.Timeout

/-- Number of log lines containing the substring (one count per line). -/
def matchCount (lines : List String) (sub : String) : Nat :=
  (lines.filter (fun l => hasSubstr l sub)).length

/-- Outcome of one sweep over the pod list inside WaitLogMessages: either
an early return from inside the loop, or the sweep finished with an updated
cumulative counter. -/
inductive ScanOutcome where
  | early (r : RunResult)
  | finished (count : Nat)
deriving DecidableEq

/-- The per-tick pod sweep of WaitLogMessages.  For each pod: open a fresh
log tail (an oracle call); a stream error returns that error; if the
context is already done and the scanner yields at least one line, the
source returns nil from inside the scanner loop, which is a success; the
counter grows by every matching line of this pod and is never reset; after
each pod the source compares the cumulative counter with the total number
of pods and returns nil on equality. -/
def scanPods (getLogs : String → Except String (List String)) (sub : String)
    (total : Nat) (ctxDone : Bool) : List Pod → Nat → ScanOutcome
  | [], count => .finished count
  | p :: ps, count =>
    match getLogs p.name with
    | .error e => .early (.error e)
    | .ok lines =>
      if ctxDone && !lines.isEmpty then .early .ok
      else
        let count2 := count + matchCount lines sub
        if count2 == total then .early .ok
        else scanPods getLogs sub total ctxDone ps count2

/-- The outer loop of WaitLogMessages.  At the top of each iteration the
context deadline is checked (fuel = 0 means it has fired, yielding the
timeout error); otherwise the loop sleeps one tick and sweeps the pod
list, reading each log tail at the post-sleep tick. -/
def waitLogMessagesAux (cl : Cluster) (ns cont sub : String) (pods : List Pod)
    (deadline : Nat) : Nat → Nat → Nat → RunResult × Nat
  | t, _count, 0 => (.error "timeout waiting for logs", t)
  | t, count, fuel + 1 =>
    match scanPods (fun pn => cl.getLogsAt (t + 1) ns pn cont) sub pods.length
        (decide (deadline ≤ t + 1)) pods count with
    | .early r => (r, t + 1)
    | .finished count2 =>
      waitLogMessagesAux cl ns cont sub pods deadline (t + 1) count2 fuel

/-- WaitLogMessages from client.go: list pods by the log Selector once (no
empty-list check in the source), then run the poll loop against the
component timeout. -/
def WaitLogMessages (cl : Cluster) (c : ManifestOutput) : RunResult × Nat :=
  match cl.listPodsAt 0 c.Namespace c.ReadyCheck.Selector with
  | .error e => (.error e, 0)
  | .ok pods =>
    waitLogMessagesAux cl c.Namespace c.ReadyCheck.Container c.ReadyCheck.LogSubStr
      pods c.ReadyCheck.Timeout 0 0 c.ReadyCheck.Timeout

/-- NamespaceExists from client.go: any retrieval error means false, a
successful retrieval means true; the probe itself returns only a Bool. -/
def NamespaceExists (getNs : String → Except String Unit) (ns : String) : Bool :=
  match getNs ns with
  | .error _ => false
  | .ok _ => true

/-- CheckReady from client.go: WaitForPodBySelectorRunning first, its error
short-circuiting, then WaitContainersReady with a fresh deadline, its
oracle accesses starting at the tick where the first phase stopped. -/
def CheckReady (cl : Cluster) (c : ManifestOutput) : RunResult :=
  match waitForPodBySelectorRunningFrom cl c 0 with
  | (.error e, _) => .error e
  | (.ok, t1) =>
    waitContainersReadyFrom cl c.Namespace c.ReadyCheck.ReadinessProbeCheckSelector
      (toString c.ReadyCheck.Timeout) t1 c.ReadyCheck.Timeout

/-- The fixed manifest filename of client.go. -/
def TempDebugManifest : String := "tmp-manifest.yaml"

/-- Observable side effects of Apply and Create: a file write attempt and
an external command invocation, in order of occurrence. -/
inductive OsEvent where
  | write (path content : String)
  | exec (cmd : String)
deriving DecidableEq

/-- Oracle for the operating system: whether os.WriteFile fails, and the
outcome of ExecCmd for a given command line. -/
structure OsEnv where
  writeErr : Option String
  execRes : String → Except String Unit

/-- Overwrite a file in the modelled filesystem (an association list in
which the most recent binding shadows older ones). -/
def setFile (fs : List (String × String)) (path content : String) : List (String × String) :=
  (path, content) :: fs.filter (fun kv => kv.1 != path)

/-- Map an ExecCmd outcome to a RunResult. -/
def execCmdResult (env : OsEnv) (cmd : String) : RunResult :=
  match env.execRes cmd with
  | .error e => .error e
  | .ok _ => .ok

/-- Shared body of Apply and Create: write the manifest to the fixed
filename; on a write error return it without invoking the command;
otherwise invoke kubectl with the given verb on that filename. -/
def writeThenExec (env : OsEnv) (fs : List (String × String)) (manifest verb : String) :
    RunResult × List (String × String) × List OsEvent :=
  match env.writeErr with
  | some e => (.error e, fs, [.write TempDebugManifest manifest])
  | none =>
    let fs2 := setFile fs TempDebugManifest manifest
    let cmd := "kubectl " ++ verb ++ " -f " ++ TempDebugManifest
    (execCmdResult env cmd, fs2, [.write TempDebugManifest manifest, .exec cmd])

/-- Apply from client.go. -/
def Apply (env : OsEnv) (fs : List (String × String)) (manifest : String) :
    RunResult × List (String × String) × List OsEvent :=
  writeThenExec env fs manifest "apply"

/-- Create from client.go. -/
def Create (env : OsEnv) (fs : List (String × String)) (manifest : String) :
    RunResult × List (String × String) × List OsEvent :=
  writeThenExec env fs manifest "create"

/-- A pod that is Pending until the given tick and Running from it on. -/
def runningFrom (nm : String) (k t : Nat) : Pod :=
  { name := nm, labels := [], phase := if k ≤ t then .Running else .Pending
  , containerStatuses := [] }

/-- Cluster for the shared-deadline counterexample: two pods; p1 reaches
Running at tick 2 and p2 at tick 5. -/
def c1cl : Cluster :=
  { listPodsAt := fun _ _ _ =>
      .ok [{ name := "p1", labels := [], phase := .Pending, containerStatuses := [] }
          , { name := "p2", labels := [], phase := .Pending, containerStatuses := [] }]
  , getPodAt := fun t _ nm => .ok (if nm = "p1" then runningFrom nm 2 t else runningFrom nm 5 t)
  , getLogsAt := fun _ _ _ _ => .ok [] }

/-- Component under check for the shared-deadline counterexample: timeout
window of 3 ticks. -/
def c1cfg : ManifestOutput :=
  { Namespace := "ns1"
  , ReadyCheck :=
    { ReadinessProbeCheckSelector := "app=x", Selector := "app=x"
    , Container := "node", LogSubStr := "started", Timeout := 3 } }

/-- Cluster for the log-count counterexample: two pods; p1 has two matching
log lines, p2 has none. -/
def c2cl : Cluster :=
  { listPodsAt := fun _ _ _ =>
      .ok [{ name := "p1", labels := [], phase := .Running, containerStatuses := [] }
          , { name := "p2", labels := [], phase := .Running, containerStatuses := [] }]
  , getPodAt := fun _ _ _ => .error "unused"
  , getLogsAt := fun _ _ nm _ =>
      if nm = "p1" then .ok ["x started y", "z started w"] else .ok [] }

/-- Component for the log-count counterexample. -/
def c2cfg : ManifestOutput :=
  { Namespace := "ns2"
  , ReadyCheck :=
    { ReadinessProbeCheckSelector := "app=x", Selector := "app=x"
    , Container := "node", LogSubStr := "started", Timeout := 10 } }

/-- Cluster whose pod listing is always empty. -/
def c3cl : Cluster :=
  { listPodsAt := fun _ _ _ => .ok []
  , getPodAt := fun _ _ _ => .error "unused"
  , getLogsAt := fun _ _ _ _ => .ok [] }

/-- Component for the empty-selector counterexample: timeout of 5 ticks. -/
def c3cfg : ManifestOutput :=
  { Namespace := "ns3"
  , ReadyCheck :=
    { ReadinessProbeCheckSelector := "app=x", Selector := "app=x"
    , Container := "node", LogSubStr := "started", Timeout := 5 } }

/-- A pod stuck Failed at every tick. -/
def c4pod : Pod :=
  { name := "p4", labels := [], phase := .Failed, containerStatuses := [] }

/-- Pod Get oracle that always returns the Failed pod. -/
def c4get : Nat → Except String Pod := fun _ => .ok c4pod

/-- Cluster whose pod listing fails outright. -/
def c5cl : Cluster :=
  { listPodsAt := fun _ _ _ => .error "list failed"
  , getPodAt := fun _ _ _ => .error "unused"
  , getLogsAt := fun _ _ _ _ => .ok [] }

/-- Component for the phase-ordering witness. -/
def c5cfg : ManifestOutput :=
  { Namespace := "ns5"
  , ReadyCheck :=
    { ReadinessProbeCheckSelector := "app=x", Selector := "app=x"
    , Container := "node", LogSubStr := "started", Timeout := 3 } }

/-- Cluster for the timeout-error counterexample: one pod whose single
container never becomes ready, and whose log never matches. -/
def c6cl : Cluster :=
  { listPodsAt := fun _ _ _ =>
      .ok [{ name := "papi", labels := [], phase := .Running
           , containerStatuses := [{ name := "api", ready := false }] }]
  , getPodAt := fun _ _ _ => .error "unused"
  , getLogsAt := fun _ _ _ _ => .ok [] }

/-- Component for the timeout-error counterexample, with distinctive
namespace and selector strings. -/
def c6cfg : ManifestOutput :=
  { Namespace := "prodns"
  , ReadyCheck :=
    { ReadinessProbeCheckSelector := "app=api", Selector := "app=logsel"
    , Container := "node", LogSubStr := "started", Timeout := 2 } }

/-- Witness cluster: one matching log line at every tick, one never-ready
container. -/
def cW : Cluster :=
  { listPodsAt := fun _ _ _ =>
      .ok [{ name := "pw", labels := [], phase := .Running
           , containerStatuses := [{ name := "c", ready := false }] }]
  , getPodAt := fun _ _ _ => .error "unused"
  , getLogsAt := fun _ _ _ _ => .ok ["line started"] }

/-- Witness pod for the mid-scan deadline clause. -/
def wPod : Pod :=
  { name := "pw", labels := [], phase := .Running, containerStatuses := [] }

/-- Witness cluster for the vacuous container-readiness claim: one pod
with no container statuses at all. -/
def c10cl : Cluster :=
  { listPodsAt := fun _ _ _ =>
      .ok [{ name := "p10", labels := [], phase := .Pending, containerStatuses := [] }]
  , getPodAt := fun _ _ _ => .error "unused"
  , getLogsAt := fun _ _ _ _ => .ok [] }

/-- A poll that was started at tick t with the given fuel never consumes a
tick beyond t + fuel: each single wait window is bounded. -/
theorem pollImmediateFrom_le (cond : Nat → Except String Bool) :
    ∀ (fuel t : Nat), (pollImmediateFrom cond t fuel).2 ≤ t + fuel := by
  intro fuel
  induction fuel with
  | zero => intro t; simp [pollImmediateFrom]
  | succ n ih =>
    intro t
    simp only [pollImmediateFrom]
    cases h : cond t with
    | error e => simp
    | ok b =>
      cases b with
      | false =>
        have := ih (t + 1)
        simp only []
        omega
      | true => simp

/-- The pod loop of WaitForPodBySelectorRunning consumes at most one full
timeout window per pod. -/
theorem waitPodsRunningFrom_le (g : Nat → String → Except String Pod) (fuel : Nat) :
    ∀ (ps : List Pod) (t : Nat),
      (waitPodsRunningFrom g fuel ps t).2 ≤ t + ps.length * fuel := by
  intro ps
  induction ps with
  | nil => intro t; simp [waitPodsRunningFrom]
  | cons p ps ih =>
    intro t
    have hmul : (ps.length + 1) * fuel = ps.length * fuel + fuel := Nat.succ_mul _ _
    have hb : (waitForPodRunning (fun s => g s p.name) t fuel).2 ≤ t + fuel :=
      pollImmediateFrom_le _ fuel t
    simp only [waitPodsRunningFrom, List.length_cons, hmul]
    rcases hp : waitForPodRunning (fun s => g s p.name) t fuel with ⟨r, t2⟩
    rw [hp] at hb
    cases r with
    | success =>
      have := ih t2
      simp only []
      omega
    | timedOut => simp only []; omega
    | condErr e => simp only []; omega

/-- If the condition is retriable before tick t, terminal with error e at
tick t, and t is inside the window, the poll returns that error having
consumed no tick beyond t: no further evaluation follows the failure. -/
theorem pollImmediateFrom_stops (cond : Nat → Except String Bool) (e : String) :
    ∀ (fuel t0 t : Nat), t0 ≤ t → t < t0 + fuel →
      (∀ s, t0 ≤ s → s < t → cond s = .ok false) → cond t = .error e →
      pollImmediateFrom cond t0 fuel = (.condErr e, t + 1) := by
  intro fuel
  induction fuel with
  | zero =>
    intro t0 t h0 h1 _ _
    exact absurd h1 (by omega)
  | succ n ih =>
    intro t0 t h0 t1 hpre hterm
    rcases Nat.eq_or_lt_of_le h0 with he | hlt
    · subst he
      simp [pollImmediateFrom, hterm]
    · have hc : cond t0 = .ok false := hpre t0 (Nat.le_refl t0) hlt
      simp only [pollImmediateFrom, hc]
      exact ih (t0 + 1) t hlt (by omega) (fun s hs1 hs2 => hpre s (by omega) hs2) hterm

/-- Evaluation of the condition body on a Failed pod. -/
theorem isPodRunning_failed (pod : Pod) (h : pod.phase = .Failed) :
    isPodRunning (.ok pod) = .error "pod failed" := by
  simp [isPodRunning, h]

/-- Evaluation of the condition body on a Succeeded pod. -/
theorem isPodRunning_succeeded (pod : Pod) (h : pod.phase = .Succeeded) :
    isPodRunning (.ok pod) = .error "pod succeeded, are we expecting a Job type" := by
  simp [isPodRunning, h]

/-- The Pod-Running phase reads only the pod Get oracle and the pod listing
at its start tick; two clusters agreeing there give the same outcome. -/
theorem waitForPodBySelectorRunningFrom_congr (cl cl' : Cluster) (c : ManifestOutput)
    (t0 : Nat) (hg : cl'.getPodAt = cl.getPodAt)
    (hl : cl'.listPodsAt t0 = cl.listPodsAt t0) :
    waitForPodBySelectorRunningFrom cl' c t0 = waitForPodBySelectorRunningFrom cl c t0 := by
  simp only [waitForPodBySelectorRunningFrom, hg, hl]

/-- With an empty pod list, the log poll loop spins through its whole fuel
and ends in the timeout error, having consumed every remaining tick. -/
theorem waitLogMessagesAux_nil (cl : Cluster) (ns cont sub : String) (deadline : Nat) :
    ∀ (fuel t count : Nat),
      waitLogMessagesAux cl ns cont sub [] deadline t count fuel
        = (.error "timeout waiting for logs", t + fuel) := by
  intro fuel
  induction fuel with
  | zero => intro t count; simp [waitLogMessagesAux]
  | succ n ih =>
    intro t count
    simp only [waitLogMessagesAux, scanPods]
    rw [ih (t + 1) count]
    congr 1
    omega

/-- Claim C1, counterexample.  The claim states that the whole readiness
check is bounded by one shared deadline equal to the ReadyCheckData
timeout, never reset per sub-check or per pod.  On this concrete cluster
(two pods, reaching Running at ticks 2 and 5, timeout window of 3 ticks)
the Pod-Running phase alone succeeds after consuming 6 ticks, twice the
timeout window, because the source restarts the full window per pod. -/
theorem shared_deadline_cex :
    waitForPodBySelectorRunningFrom c1cl c1cfg 0 = (.ok, 6)
    ∧ c1cfg.ReadyCheck.Timeout = 3
    ∧ ¬(6 ≤ c1cfg.ReadyCheck.Timeout) :=
  ⟨rfl, rfl, by decide⟩

/-- Claim C1, amended: each per-pod poll is bounded by its own fresh
timeout window, and the Pod-Running phase as a whole is bounded by the
number of pods times the window, not by a single shared window. -/
theorem timeout_window_per_pod_bound :
    (∀ (cond : Nat → Except String Bool) (t fuel : Nat),
        (pollImmediateFrom cond t fuel).2 ≤ t + fuel)
    ∧ (∀ (g : Nat → String → Except String Pod) (fuel : Nat) (ps : List Pod) (t : Nat),
        (waitPodsRunningFrom g fuel ps t).2 ≤ t + ps.length * fuel) :=
  ⟨fun cond t fuel => pollImmediateFrom_le cond fuel t,
   fun g fuel ps t => waitPodsRunningFrom_le g fuel ps t⟩

/-- Claim C4: during the Pod-Running check, a pod observed in the Failed
phase aborts the poll at once with the terminal error, with no tick polled
beyond the one where the failure was seen; a Succeeded phase is likewise an
immediate terminal failure, not a success and not a retry. -/
theorem pod_terminal_phase_aborts (getPod : Nat → Except String Pod) (t0 fuel t : Nat)
    (pod : Pod) (h0 : t0 ≤ t) (h1 : t < t0 + fuel)
    (hbefore : ∀ s, t0 ≤ s → s < t → isPodRunning (getPod s) = .ok false)
    (hget : getPod t = .ok pod) :
    (pod.phase = .Failed →
      waitForPodRunning getPod t0 fuel = (.condErr "pod failed", t + 1))
    ∧ (pod.phase = .Succeeded →
      waitForPodRunning getPod t0 fuel
        = (.condErr "pod succeeded, are we expecting a Job type", t + 1)) := by
  constructor
  · intro hF
    have hterm : isPodRunning (getPod t) = .error "pod failed" := by
      rw [hget]; exact isPodRunning_failed pod hF
    exact pollImmediateFrom_stops _ _ fuel t0 t h0 h1 hbefore hterm
  · intro hS
    have hterm : isPodRunning (getPod t)
        = .error "pod succeeded, are we expecting a Job type" := by
      rw [hget]; exact isPodRunning_succeeded pod hS
    exact pollImmediateFrom_stops _ _ fuel t0 t h0 h1 hbefore hterm

/-- Claim C4, witness: a pod already Failed at the first tick makes the
wait return the terminal error after exactly one evaluation. -/
theorem pod_terminal_phase_aborts_witness :
    waitForPodRunning c4get 0 1 = (.condErr "pod failed", 0 + 1) :=
  (pod_terminal_phase_aborts c4get 0 1 0 c4pod (Nat.le_refl 0) (by decide)
    (fun s _ hs => absurd hs (Nat.not_lt_zero s)) rfl).1 rfl

/-- Claim C5: in CheckReady, a Pod-Running failure makes the whole check
return that error for every cluster that agrees on the oracles the first
phase reads, so the Container-Ready phase is never consulted; and when the
first phase succeeds at tick t1, the combined result is exactly the
Container-Ready check started at t1 with its own full window. -/
theorem checkReady_phase_order (cl cl' : Cluster) (c : ManifestOutput) (e : String)
    (t1 : Nat) (hg : cl'.getPodAt = cl.getPodAt)
    (hl : cl'.listPodsAt 0 = cl.listPodsAt 0) :
    (waitForPodBySelectorRunningFrom cl c 0 = (.error e, t1) → CheckReady cl' c = .error e)
    ∧ (waitForPodBySelectorRunningFrom cl c 0 = (.ok, t1) →
        CheckReady cl c
          = waitContainersReadyFrom cl c.Namespace c.ReadyCheck.ReadinessProbeCheckSelector
              (toString c.ReadyCheck.Timeout) t1 c.ReadyCheck.Timeout) := by
  constructor
  · intro h
    unfold CheckReady
    rw [waitForPodBySelectorRunningFrom_congr cl cl' c 0 hg hl, h]
  · intro h
    unfold CheckReady
    rw [h]

/-- Claim C5, witness: a failing pod listing aborts CheckReady with that
error. -/
theorem checkReady_phase_order_witness : CheckReady c5cl c5cfg = .error "list failed" :=
  (checkReady_phase_order c5cl c5cl c5cfg "list failed" 0 rfl rfl).1 rfl

/-- Claim C7: the namespace existence probe returns false exactly when the
retrieval call errors (whatever the error) and true exactly when it
succeeds; being Bool-valued, it surfaces no error of its own. -/
theorem namespaceExists_error_is_false (g : String → Except String Unit) (ns : String) :
    (∀ e, g ns = .error e → NamespaceExists g ns = false)
    ∧ (NamespaceExists g ns = true ↔ g ns = .ok ()) := by
  constructor
  · intro e h
    simp [NamespaceExists, h]
  · unfold NamespaceExists
    cases h : g ns with
    | error e => simp
    | ok u => cases u; simp

/-- Claim C7, witness. -/
theorem namespaceExists_error_is_false_witness :
    NamespaceExists (fun _ => .error "not found") "ns0" = false
    ∧ NamespaceExists (fun _ => .ok ()) "ns0" = true :=
  ⟨(namespaceExists_error_is_false (fun _ => .error "not found") "ns0").1 "not found" rfl,
   (namespaceExists_error_is_false (fun _ => .ok ()) "ns0").2.mpr rfl⟩

/-- With the empty seen set the loop keeps every pod, since the set is
never extended. -/
theorem uniqueLabelsLoop_nil :
    ∀ pods : List Pod, uniqueLabelsLoop [] pods = pods.map (fun p => labelValue p "app") := by
  intro pods
  induction pods with
  | nil => rfl
  | cons p ps ih => simp [uniqueLabelsLoop, ih]

/-- Claim C9: the seen map of UniqueLabels is never populated, so the
function returns the app label of every listed pod in order, duplicates
included; on a listing error the error propagates. -/
theorem uniqueLabels_maps_all_pods (pods : List Pod) (e : String) :
    UniqueLabels (.ok pods) = .ok (pods.map (fun p => labelValue p "app"))
    ∧ UniqueLabels (.error e) = .error e := by
  refine ⟨?_, rfl⟩
  show Except.ok (uniqueLabelsLoop [] pods)
    = Except.ok (pods.map (fun p => labelValue p "app"))
  rw [uniqueLabelsLoop_nil]

/-- Claim C10: when every listed pod reports no container status at all,
the Container-Ready loop judges everything ready and returns success on
its first iteration, whatever fuel remains. -/
theorem containers_ready_vacuous (cl : Cluster) (ns sel ts : String) (t fuel : Nat)
    (pods : List Pod) (hlist : cl.listPodsAt t ns sel = .ok pods) (hne : pods ≠ [])
    (hempty : ∀ p ∈ pods, p.containerStatuses = []) :
    waitContainersReadyFrom cl ns sel ts t (fuel + 1) = .ok := by
  have hall : allContainersReady pods = true := by
    unfold allContainersReady
    rw [List.all_eq_true]
    intro p hp
    rw [hempty p hp]
    rfl
  simp only [waitContainersReadyFrom]
  rw [hlist]
  simp [hall, hne]

/-- Claim C10, witness: one pod with an empty container status list is
judged ready on the first tick. -/
theorem containers_ready_vacuous_witness :
    waitContainersReadyFrom c10cl "n" "s" "5" 0 (0 + 1) = .ok :=
  containers_ready_vacuous c10cl "n" "s" "5" 0 0
    [{ name := "p10", labels := [], phase := .Pending, containerStatuses := [] }]
    rfl (by decide) (by decide)

/-- Claim C2, counterexample.  The claim states at most one match is
counted per pod and that success requires every pod to have contributed a
match.  On this cluster pod p1 alone has two matching lines and pod p2 has
none at the only tick polled, yet the check succeeds at that tick: the
counter is cumulative across lines, so one pod satisfies the quota of
both. -/
theorem log_single_pod_satisfies_cex :
    WaitLogMessages c2cl c2cfg = (.ok, 1)
    ∧ c2cl.getLogsAt 1 c2cfg.Namespace "p2" c2cfg.ReadyCheck.Container = .ok []
    ∧ matchCount [] c2cfg.ReadyCheck.LogSubStr = 0 :=
  ⟨rfl, rfl, rfl⟩

/-- Claim C2, amended: the check counts every matching log line into one
cumulative counter, never reset across pods or ticks, and succeeds as soon
as the counter equals the number of listed pods after the sweep of some pod; in
particular a first pod whose tail alone contains as many matching lines as
there are pods makes the check succeed on the first tick. -/
theorem log_cumulative_count (cl : Cluster) (c : ManifestOutput) (p : Pod) (ps : List Pod)
    (lines : List String) (k : Nat)
    (hlist : cl.listPodsAt 0 c.Namespace c.ReadyCheck.Selector = .ok (p :: ps))
    (ht : c.ReadyCheck.Timeout = k + 2)
    (hlog : cl.getLogsAt 1 c.Namespace p.name c.ReadyCheck.Container = .ok lines)
    (hcount : matchCount lines c.ReadyCheck.LogSubStr = (p :: ps).length) :
    WaitLogMessages cl c = (.ok, 1) := by
  unfold WaitLogMessages
  rw [hlist, ht]
  show waitLogMessagesAux cl c.Namespace c.ReadyCheck.Container c.ReadyCheck.LogSubStr
      (p :: ps) (k + 2) 0 0 (k + 1 + 1) = (.ok, 1)
  have hd : decide (k + 2 ≤ 0 + 1) = false := decide_eq_false (by omega)
  simp only [waitLogMessagesAux, scanPods, hd, Nat.zero_add, hlog, Bool.false_and,
    Bool.if_false_left, hcount, beq_self_eq_true, if_true]
  rfl

/-- Claim C2, amended, witness: two pods, the first with two matching
lines, succeed on the first tick. -/
theorem log_cumulative_count_witness : WaitLogMessages c2cl c2cfg = (.ok, 1) :=
  log_cumulative_count c2cl c2cfg
    { name := "p1", labels := [], phase := .Running, containerStatuses := [] }
    [{ name := "p2", labels := [], phase := .Running, containerStatuses := [] }]
    ["x started y", "z started w"] 8 rfl rfl rfl (by decide)

/-- Claim C3, counterexample.  The claim states every phase, the
Log-Substring check included, fails fast with the empty-match error when
its selector matches no pod.  On this cluster the log selector matches
zero pods, yet the check spins for its whole 5-tick budget and returns the
timeout error, not the empty-match error. -/
theorem log_empty_selector_times_out_cex :
    WaitLogMessages c3cl c3cfg = (.error "timeout waiting for logs", 5)
    ∧ (WaitLogMessages c3cl c3cfg).2 = c3cfg.ReadyCheck.Timeout
    ∧ (WaitLogMessages c3cl c3cfg).1
        ≠ .error (noPodsMsg c3cfg.Namespace (toString c3cfg.ReadyCheck.Timeout)) :=
  ⟨rfl, rfl, by decide⟩

/-- Claim C3, amended: the Pod-Running and Container-Ready phases fail
fast on an empty pod match, consuming no poll tick; the Log-Substring
check has no such guard and, with zero matching pods, consumes its entire
remaining budget and ends in the timeout error. -/
theorem empty_selector_fast_fail_partial (cl : Cluster) (c : ManifestOutput)
    (ns sel ts cont sub : String) (t0 t fuel count deadline : Nat)
    (h1 : cl.listPodsAt t0 c.Namespace c.ReadyCheck.ReadinessProbeCheckSelector = .ok [])
    (h2 : cl.listPodsAt t ns sel = .ok []) :
    waitForPodBySelectorRunningFrom cl c t0
      = (.error (noPodsMsg c.Namespace (toString c.ReadyCheck.Timeout)), t0)
    ∧ waitContainersReadyFrom cl ns sel ts t (fuel + 1) = .error (noPodsMsg ns ts)
    ∧ waitLogMessagesAux cl ns cont sub [] deadline t count fuel
      = (.error "timeout waiting for logs", t + fuel) := by
  refine ⟨?_, ?_, waitLogMessagesAux_nil cl ns cont sub deadline fuel t count⟩
  · unfold waitForPodBySelectorRunningFrom
    rw [h1]
    rfl
  · simp only [waitContainersReadyFrom]
    rw [h2]
    rfl

/-- Claim C3, amended, witness. -/
theorem empty_selector_fast_fail_partial_witness :
    waitForPodBySelectorRunningFrom c3cl c3cfg 0
      = (.error (noPodsMsg c3cfg.Namespace (toString c3cfg.ReadyCheck.Timeout)), 0)
    ∧ waitContainersReadyFrom c3cl "ns3" "app=x" "5" 0 (0 + 1) = .error (noPodsMsg "ns3" "5")
    ∧ waitLogMessagesAux c3cl "ns3" "node" "started" [] 5 0 0 0
      = (.error "timeout waiting for logs", 0 + 0) :=
  empty_selector_fast_fail_partial c3cl c3cfg "ns3" "app=x" "5" "node" "started" 0 0 0 0 5
    rfl rfl

/-- Claim C6, counterexample.  The claim states a Container-Ready or
Log-Substring timeout error carries the selector and namespace being
waited on.  On this concrete cluster both checks time out while their
error messages are fixed strings containing neither the namespace
"prodns" nor the selectors. -/
theorem timeout_error_lacks_context_cex :
    WaitContainersReady c6cl c6cfg = .error "timeout waiting container readiness probes"
    ∧ hasSubstr "timeout waiting container readiness probes" c6cfg.Namespace = false
    ∧ hasSubstr "timeout waiting container readiness probes"
        c6cfg.ReadyCheck.ReadinessProbeCheckSelector = false
    ∧ WaitLogMessages c6cl c6cfg = (.error "timeout waiting for logs", 2)
    ∧ hasSubstr "timeout waiting for logs" c6cfg.Namespace = false
    ∧ hasSubstr "timeout waiting for logs" c6cfg.ReadyCheck.Selector = false :=
  ⟨rfl, rfl, rfl, rfl, rfl, rfl⟩

/-- Claim C6, amended: deadline expiry in the Container-Ready and
Log-Substring checks yields a fixed phase-naming error string, independent
of selector and namespace; moreover, when the log deadline expires during
the sleep before a sweep and the tail of the first pod is non-empty, the check
returns success from inside the scanner rather than a timeout error. -/
theorem timeout_error_fixed_shape (cl : Cluster) (ns sel ts cont sub : String)
    (p : Pod) (ps : List Pod) (lines : List String) (deadline t count fuel : Nat) :
    waitContainersReadyFrom cl ns sel ts t 0
      = .error "timeout waiting container readiness probes"
    ∧ waitLogMessagesAux cl ns cont sub ps deadline t count 0
        = (.error "timeout waiting for logs", t)
    ∧ (deadline ≤ t + 1 → cl.getLogsAt (t + 1) ns p.name cont = .ok lines → lines ≠ [] →
        waitLogMessagesAux cl ns cont sub (p :: ps) deadline t count (fuel + 1)
          = (.ok, t + 1)) := by
  refine ⟨rfl, rfl, ?_⟩
  intro hdl hlog hne
  have hd : decide (deadline ≤ t + 1) = true := decide_eq_true hdl
  have hie : lines.isEmpty = false := by
    cases lines with
    | nil => exact absurd rfl hne
    | cons a as => rfl
  simp only [waitLogMessagesAux, scanPods, hlog, hd, hie, Bool.not_false, Bool.and_self,
    if_true]

/-- Claim C6, amended, witness. -/
theorem timeout_error_fixed_shape_witness :
    waitContainersReadyFrom cW "nsW" "selW" "9" 0 0
      = .error "timeout waiting container readiness probes"
    ∧ waitLogMessagesAux cW "nsW" "cw" "subW" [] 1 0 0 0
        = (.error "timeout waiting for logs", 0)
    ∧ waitLogMessagesAux cW "nsW" "cw" "subW" [wPod] 1 0 0 (0 + 1) = (.ok, 0 + 1) := by
  have h := timeout_error_fixed_shape cW "nsW" "selW" "9" "cw" "subW" wPod []
    ["line started"] 1 0 0 0
  exact ⟨h.1, h.2.1, h.2.2 (by decide) rfl (by decide)⟩

/-- Claim C8: Apply and Create first write the whole manifest to the fixed
well-known filename, overwriting whatever was there, and only then invoke
the external kubectl command; a failed write returns the write error with
no command invocation. -/
theorem manifest_written_before_exec (env : OsEnv) (fs : List (String × String))
    (manifest : String) :
    (∀ e, env.writeErr = some e →
      (Apply env fs manifest).1 = .error e
      ∧ (Apply env fs manifest).2.2 = [OsEvent.write TempDebugManifest manifest]
      ∧ (Create env fs manifest).1 = .error e
      ∧ (Create env fs manifest).2.2 = [OsEvent.write TempDebugManifest manifest])
    ∧ (env.writeErr = none →
      (Apply env fs manifest).2.2
        = [OsEvent.write TempDebugManifest manifest,
           OsEvent.exec "kubectl apply -f tmp-manifest.yaml"]
      ∧ List.lookup TempDebugManifest (Apply env fs manifest).2.1 = some manifest
      ∧ (Create env fs manifest).2.2
        = [OsEvent.write TempDebugManifest manifest,
           OsEvent.exec "kubectl create -f tmp-manifest.yaml"]
      ∧ List.lookup TempDebugManifest (Create env fs manifest).2.1 = some manifest) := by
  constructor
  · intro e h
    refine ⟨?_, ?_, ?_, ?_⟩ <;> simp [Apply, Create, writeThenExec, h]
  · intro h
    refine ⟨?_, ?_, ?_, ?_⟩ <;>
      simp [Apply, Create, writeThenExec, h, setFile, List.lookup, TempDebugManifest]

/-- Claim C8, witness. -/
theorem manifest_written_before_exec_witness :
    (Apply { writeErr := some "disk full", execRes := fun _ => .ok () } [] "m").2.2
      = [OsEvent.write TempDebugManifest "m"]
    ∧ List.lookup TempDebugManifest
        (Apply { writeErr := none, execRes := fun _ => .ok () } [] "m").2.1 = some "m" :=
  ⟨((manifest_written_before_exec
      { writeErr := some "disk full", execRes := fun _ => .ok () } [] "m").1
        "disk full" rfl).2.1,
   ((manifest_written_before_exec
      { writeErr := none, execRes := fun _ => .ok () } [] "m").2 rfl).2.1⟩
